import Mathlib

/-!
# Verification of the signer service (`src/signer/signer.py`, `src/signer/config.py`)

Shallow embedding of the signing-dispatch-and-retry core:

* the dispatcher `sign_request`, the legacy backend `sign_legacy`, the remote
  backend wrapper `sign_request_retriable`, the key bootstrap
  `import_legacy_key`, and the result retrieval `get_signature_file`;
* Python exceptions become an explicit `Except` error channel; the dynamic
  Python return value becomes `PyVal` (the code returns `True`/`False` on some
  paths and a `subprocess.CompletedProcess` object on another);
* the Redis result store and the local filesystem become string-keyed partial
  maps inside `World`; log lines, store writes, vault fetches and backend
  invocations are recorded as an event trace so that claims about effect
  counts can be stated;
* the `@retry` decorator comes from the third-party `retrying` library, which
  is not part of this repository; its loop (`retryRun`) and its backoff delays
  (`retryDelayMs`) are modelled from the spec: up to 10 attempts, any raised
  exception retried, delay before attempt `n` equal to
  `min(60s, 2^(n-2) * 1s)`.
-/

/-- Result of running an external command (`subprocess.run` via
`util.run_cmd_out`): exit code plus captured output streams. -/
structure CmdResult where
  returncode : Int
  stdout : String
  stderr : String
deriving Repr, DecidableEq

/-- The Python exceptions that can arise in `signer.py`.  `esrpAuth`,
`valueError` and `clientAuth` are the three classes caught as non-retriable in
`sign_request_retriable`; `generic` stands for any other `Exception`;
`attributeError` is raised by attribute access on a missing `Settings` field;
`nameError` by evaluating an undefined name. -/
inductive PyExc where
  | esrpAuth
  | valueError
  | clientAuth
  | generic (msg : String)
  | attributeError (name : String)
  | nameError (name : String)
deriving Repr, DecidableEq

/-- The dynamically-typed Python values returned by the signer functions:
booleans, a `subprocess.CompletedProcess` (returned by `sign_legacy` as
`return res`), and the response dict built by `get_signature_file`. -/
inductive PyVal where
  | bool (b : Bool)
  | completedProcess (returncode : Int) (stdout stderr : String)
  | dict (content : String)
deriving Repr, DecidableEq

/-- Python truthiness of the values above: `CompletedProcess` and dict objects
define neither `__bool__` nor `__len__`, so they are truthy. -/
def PyVal.isTruthy : PyVal → Bool
  | .bool b => b
  | .completedProcess _ _ _ => true
  | .dict _ => true

/-- Observable effects recorded while the signer code runs.  `vaultFetch` and
`gpgImport` would be emitted by the key-download half of `import_legacy_key`;
that half is unreachable in the source as written (see `import_legacy_key`),
but the constructors are kept so that zero-fetch/zero-import claims are
statable. -/
inductive Event where
  | logError (msg : String)
  | logInfo (msg : String)
  | logDebug (msg : String)
  | sleep (ms : Nat)
  | vaultFetch (vault secret : String)
  | tempWrite (path : String)
  | gpgImport (path : String)
  | secureDelete (path : String)
  | esrpInvoke (keyId : String) (attempt : Nat)
  | gpgSignInvoke (attempt : Nat)
  | redisSet (key value : String)
deriving Repr, DecidableEq

/-- The mutable world the signer touches: the shared Redis result store
(correlation key to signature-file path), the local filesystem (path to file
content), and the chronological event trace. -/
structure World where
  redis : String → Option String
  files : String → Option String
  trace : List Event

/-- Append one event to the trace. -/
def World.log (w : World) (e : Event) : World :=
  { w with trace := w.trace ++ [e] }

/-- Point update of a string-keyed partial map (`redis.set`, file creation). -/
def upd (m : String → Option String) (k v : String) : String → Option String :=
  fun x => if x = k then some v else m x

/-- A world with empty store, empty filesystem and empty trace. -/
def emptyWorld : World :=
  { redis := fun _ => none, files := fun _ => none, trace := [] }

/-- `isPrefixChars n h` is true iff the char list `n` is a prefix of `h`. -/
def isPrefixChars : List Char → List Char → Bool
  | [], _ => true
  | _ :: _, [] => false
  | a :: as, b :: bs => a == b && isPrefixChars as bs

/-- `isInfixChars n h` is true iff `n` occurs contiguously inside `h`. -/
def isInfixChars : List Char → List Char → Bool
  | n, [] => isPrefixChars n []
  | n, c :: t => isPrefixChars n (c :: t) || isInfixChars n t

/-- Python's substring test `needle in haystack`. -/
def strIn (needle haystack : String) : Bool :=
  isInfixChars needle.data haystack.data

/-- `config.Settings` (pydantic `BaseSettings`) from `src/signer/config.py`.
Note that `LEGACY_KEY` is NOT among its fields: the fields are exactly the
ones declared in the source. -/
structure Settings where
  KEYVAULT : String
  AUTH_CERT_PATH : String
  SIGN_CERT : String
  LEGACY_KEY_PATH : String
  APP_ID : String
  TENANT_ID : String
  KEY_CODES : String := ""
  LEGACY_KEY_THUMBPRINT : String := ""

/-- Split a character list at every occurrence of `sep`, accumulating the
current chunk in reverse: the executable model of Python `str.split(sep)` for
a one-character separator (an empty string splits to `[""]`, adjacent
separators yield empty chunks). -/
def splitOnCharAux (sep : Char) : List Char → List Char → List (List Char)
  | [], acc => [acc.reverse]
  | c :: rest, acc =>
      if c = sep then acc.reverse :: splitOnCharAux sep rest []
      else splitOnCharAux sep rest (c :: acc)

/-- Python `s.split(sep)` for the one-character separator used in the
source. -/
def splitOnChar (sep : Char) (s : String) : List String :=
  (splitOnCharAux sep s.data []).map (fun cs => String.mk cs)

/-- `config.is_valid_keycode`: membership of `key_id` in the semicolon-split
`KEY_CODES` list (`settings.KEY_CODES.split(";")`). -/
def is_valid_keycode (cfg : Settings) (key_id : String) : Bool :=
  (splitOnChar ';' cfg.KEY_CODES).contains key_id

/-- `signer.get_signature_index`: the Redis key for a task id. -/
def get_signature_index (task_id : String) : String :=
  task_id ++ "_signature"

/-- Environment of one run of `import_legacy_key`: the result of the
`gpg --list-secret-keys` invocation. -/
structure LegacyEnv where
  listResult : CmdResult

/-- `signer.import_legacy_key`.  It lists the gpg secret keys (a failure to
list is logged and ignored), returns early when the configured thumbprint
occurs in the listing output, and otherwise enters the download path.  The
download path first evaluates
`f"Downloading legacy signing key from {settings.KEYVAULT} : {settings.LEGACY_KEY}"`;
`LEGACY_KEY` is not a declared field of `Settings` (see `config.py`), so this
attribute access raises `AttributeError` before any vault fetch, temporary
write, keystore import or delete can happen — the rest of the function
(`get_secret`, `write_to_temporary_file`, `gpg --import`, `secure_delete`) is
unreachable. -/
def import_legacy_key (cfg : Settings) (env : LegacyEnv) (w : World) :
    Except PyExc Unit × World :=
  let res := env.listResult
  let w :=
    if res.returncode ≠ 0 then
      w.log (.logError ("Exit code checking gpg key: " ++ res.stderr))
    else w
  if strIn cfg.LEGACY_KEY_THUMBPRINT res.stdout then
    (Except.ok (),
      w.log (.logDebug ("Found key with thumbprint " ++ cfg.LEGACY_KEY_THUMBPRINT)))
  else
    (Except.error (.attributeError "LEGACY_KEY"), w)

/-- Delay in milliseconds before attempt `n` (for `n ≥ 2`).
Modelled from the spec: the wait computation lives in the third-party
`retrying` library (decorator arguments `wait_exponential_multiplier=1000`,
`wait_exponential_max=60000` appear in the source); the spec gives the delay
before attempt `n` as `min(60s, 2^(n-2) * 1s)`. -/
def retryDelayMs (n : Nat) : Nat :=
  min 60000 (2 ^ (n - 2) * 1000)

/-- Modelled from the spec: the retry loop of the third-party `retrying`
library's `@retry` decorator (`stop_max_attempt_number=10` in the source), as
described by the spec: up to `fuel + 1` further attempts, any raised exception
is retried after sleeping `retryDelayMs` of the next attempt number, the final
attempt's exception propagates, and a returned value (whatever it is) stops
the loop.  The top-level call uses `attempt = 1` and `fuel = 9`, giving at
most 10 invocations of `body`. -/
def retryRun (body : Nat → World → Except PyExc PyVal × World) :
    Nat → Nat → World → Except PyExc PyVal × World
  | attempt, 0, w => body attempt w
  | attempt, fuel + 1, w =>
    match body attempt w with
    | (Except.ok v, w₁) => (Except.ok v, w₁)
    | (Except.error _, w₁) =>
        retryRun body (attempt + 1) fuel
          (w₁.log (.sleep (retryDelayMs (attempt + 1))))

/-- Environment of one attempt of `sign_legacy`: the `import_legacy_key`
environment, the temporary paths chosen, the signature content gpg would
produce, and the result of the `gpg --detach-sign` invocation. -/
structure LegacyAttemptEnv where
  importEnv : LegacyEnv
  unsignedPath : String
  sigPath : String
  sigContent : String
  signResult : CmdResult

/-- The part of one `sign_legacy` attempt that follows the `import_legacy_key()`
call.  A raised import exception propagates unchanged into the retry logic.
Otherwise: write the unsigned file, pick a temporary signature path, invoke
`gpg --detach-sign`; on exit code 0 store the signature path in Redis and
return the `CompletedProcess` object `res` (the source says `return res`,
not `return True`), otherwise raise. -/
def afterImport (env : LegacyAttemptEnv) (task_id : String) (attempt : Nat) :
    Except PyExc Unit × World → Except PyExc PyVal × World
  | (Except.error e, w₁) => (Except.error e, w₁)
  | (Except.ok _, w₁) =>
    let res := env.signResult
    let w₂ := w₁.log (.gpgSignInvoke attempt)
    if res.returncode = 0 then
      let signature_key := get_signature_index task_id
      let w₃ :=
        { w₂ with
          redis := upd w₂.redis signature_key env.sigPath,
          files := upd w₂.files env.sigPath env.sigContent,
          trace := w₂.trace ++ [.redisSet signature_key env.sigPath] }
      (Except.ok (.completedProcess res.returncode res.stdout res.stderr), w₃)
    else
      (Except.error (.generic ("Error signing with legacy key: " ++ res.stderr)), w₂)

/-- One attempt of `signer.sign_legacy` (the body wrapped by `@retry`):
run `import_legacy_key`, then the rest of the attempt (`afterImport`). -/
def sign_legacy_body (cfg : Settings) (env : LegacyAttemptEnv) (task_id : String)
    (attempt : Nat) (w : World) : Except PyExc PyVal × World :=
  afterImport env task_id attempt (import_legacy_key cfg env.importEnv w)

/-- `signer.sign_legacy` with its `@retry(stop_max_attempt_number=10, ...)`
decorator: up to 10 attempts of `sign_legacy_body`. -/
def sign_legacy (cfg : Settings) (envs : Nat → LegacyAttemptEnv) (task_id : String)
    (w : World) : Except PyExc PyVal × World :=
  retryRun (fun n w₀ => sign_legacy_body cfg (envs n) task_id n w₀) 1 9 w

/-- Outcome of one call to `esrp.sign_content`: either the path of the signed
file it produced on disk (with the content written there), or a raised
exception. -/
inductive EsrpOutcome where
  | ok (dstFile content : String)
  | exc (e : PyExc)

/-- The three exception classes caught by the first `except` clause of
`sign_request_retriable` (`esrp.ESRPAuthException, ValueError,
ClientAuthenticationError`). -/
def isNonRetriable : PyExc → Bool
  | .esrpAuth => true
  | .valueError => true
  | .clientAuth => true
  | _ => false

/-- One attempt of `signer.sign_request_retriable` (the body wrapped by
`@retry`): log, call `esrp.sign_content`; on success store the produced path
in Redis and return `True`; a non-retriable exception is caught and converted
to `return False`; any other exception is logged and re-raised so the retry
logic fires. -/
def sign_request_retriable_body (outcome : EsrpOutcome) (task_id key_id : String)
    (attempt : Nat) (w : World) : Except PyExc PyVal × World :=
  let w₁ := (w.log (.logInfo ("Generating signature for " ++ task_id))).log
    (.esrpInvoke key_id attempt)
  match outcome with
  | .ok dstFile content =>
    let signature_key := get_signature_index task_id
    let w₂ := w₁.log (.logInfo ("Successfully signed file for " ++ task_id))
    let w₃ :=
      { w₂ with
        redis := upd w₂.redis signature_key dstFile,
        files := upd w₂.files dstFile content,
        trace := w₂.trace ++ [.redisSet signature_key dstFile] }
    (Except.ok (.bool true), w₃)
  | .exc e =>
    if isNonRetriable e then
      (Except.ok (.bool false),
        w₁.log (.logError ("Fatal error handling request for task " ++ task_id)))
    else
      (Except.error e,
        w₁.log (.logError ("Retriable error handling request for task " ++ task_id)))

/-- `signer.sign_request_retriable` with its `@retry` decorator: up to 10
attempts, attempt `n` seeing the backend outcome `outcomes n`. -/
def sign_request_retriable (outcomes : Nat → EsrpOutcome) (task_id key_id : String)
    (w : World) : Except PyExc PyVal × World :=
  retryRun (fun n w₀ => sign_request_retriable_body (outcomes n) task_id key_id n w₀) 1 9 w

/-- Environment of one `sign_request` call: the per-attempt environments of
both backends. -/
structure ReqEnv where
  legacyAttempts : Nat → LegacyAttemptEnv
  esrpAttempts : Nat → EsrpOutcome

/-- The `try/except Exception` shape of both dispatcher branches: a returned
value is passed through; any escaped exception is logged (event `e`) and
converted to `False`. -/
def dispatchResult (rr : Except PyExc PyVal × World) (e : Event) : PyVal × World :=
  match rr with
  | (Except.ok v, w₁) => (v, w₁)
  | (Except.error _, w₁) => (.bool false, w₁.log e)

/-- `signer.sign_request`, the top-level dispatcher.  `key_id == "legacy"`
routes to `sign_legacy` under `try/except Exception` (any escaped exception is
logged and converted to `False`); otherwise an unknown key code is logged as a
diagnostic but execution still proceeds to `sign_request_retriable`, again
under `try/except Exception`.  Note the legacy branch returns whatever
`sign_legacy` returned — the `CompletedProcess` object, not a boolean. -/
def sign_request (cfg : Settings) (env : ReqEnv) (key_id task_id : String)
    (w : World) : PyVal × World :=
  if key_id = "legacy" then
    dispatchResult (sign_legacy cfg env.legacyAttempts task_id w)
      (.logError "Fatal error signing with legacy key")
  else
    dispatchResult (sign_request_retriable env.esrpAttempts task_id key_id
      (if is_valid_keycode cfg key_id then w
       else w.log (.logError ("Key code " ++ key_id ++
         " is not in the list of supported keys for task " ++ task_id))))
      (.logError ("Fatal error to handle request for " ++ task_id))

/-- `signer.get_signature_file`.  Looks up the Redis key for the task id.  On
a miss the source executes `return Response`, and the name `Response` is
neither defined nor imported anywhere in `signer.py`, so a `NameError` is
raised.  On a hit it opens the recorded path and returns the response dict
with the file content (a missing file is a distinct `open` failure). -/
def get_signature_file (task_id : String) (w : World) :
    Except PyExc PyVal × World :=
  let signature_key := get_signature_index task_id
  match w.redis signature_key with
  | none =>
      (Except.error (.nameError "Response"),
        w.log (.logError ("Key " ++ signature_key ++ " not present in Redis")))
  | some sig_file =>
    match w.files sig_file with
    | none => (Except.error (.generic ("FileNotFoundError: " ++ sig_file)), w)
    | some content => (Except.ok (.dict content), w)

/-- Overall success of a wrapped call as the dispatcher sees it: a returned
truthy value.  A raised exception is never a success. -/
def isSuccess : Except PyExc PyVal → Bool
  | Except.ok v => v.isTruthy
  | Except.error _ => false

/-- Whether a wrapped call ended in a raised exception. -/
def isErr : Except PyExc PyVal → Bool
  | Except.error _ => true
  | Except.ok _ => false

/-- Whether a `PyVal` is a Python boolean. -/
def PyVal.isBool : PyVal → Bool
  | .bool _ => true
  | _ => false

/-- Recognise a remote-authority invocation event. -/
def isEsrpInvoke : Event → Bool
  | .esrpInvoke _ _ => true
  | _ => false

/-- Number of `esrp.sign_content` invocations recorded in a world. -/
def countEsrp (w : World) : Nat :=
  w.trace.countP isEsrpInvoke

/-- Recognise a secret-vault fetch event. -/
def isVaultFetch : Event → Bool
  | .vaultFetch _ _ => true
  | _ => false

/-- Number of secret-vault fetches recorded in a world. -/
def countVaultFetches (w : World) : Nat :=
  w.trace.countP isVaultFetch

/-- Recognise a keystore (gpg) import event. -/
def isGpgImport : Event → Bool
  | .gpgImport _ => true
  | _ => false

/-- Number of keystore imports recorded in a world. -/
def countGpgImports (w : World) : Nat :=
  w.trace.countP isGpgImport

/-- Recognise the writing of secret material to a temporary file. -/
def isTempWrite : Event → Bool
  | .tempWrite _ => true
  | _ => false

/-- Number of secret-material temporary-file writes recorded in a world. -/
def countTempWrites (w : World) : Nat :=
  w.trace.countP isTempWrite

/-- Extract the delay of a backoff-sleep event. -/
def sleepOf : Event → Option Nat
  | .sleep ms => some ms
  | _ => none

/-- The backoff delays (in ms) recorded in a world, in order. -/
def sleeps (w : World) : List Nat :=
  w.trace.filterMap sleepOf

/-- Concrete settings used by the closed evaluations below: permitted key
codes `k1` and `k2`, legacy thumbprint `ABCD`. -/
def cfgA : Settings :=
  { KEYVAULT := "kv", AUTH_CERT_PATH := "/certs/auth.pem", SIGN_CERT := "sc",
    LEGACY_KEY_PATH := "/keys/legacy.pem", APP_ID := "app", TENANT_ID := "ten",
    KEY_CODES := "k1;k2", LEGACY_KEY_THUMBPRINT := "ABCD" }

/-- A legacy attempt in which the thumbprint is already in the keystore and
the gpg detach-sign invocation exits 0. -/
def legacyAttemptOk : LegacyAttemptEnv :=
  { importEnv := { listResult := { returncode := 0, stdout := "sec rsa4096 ABCD trust", stderr := "" } },
    unsignedPath := "/tmp/unsigned", sigPath := "/tmp/sig.asc", sigContent := "LEGACYSIG",
    signResult := { returncode := 0, stdout := "gpgout", stderr := "gpgerr" } }

/-- Request environment whose remote backend succeeds on the first attempt
and whose legacy backend succeeds on every attempt. -/
def envA : ReqEnv :=
  { legacyAttempts := fun _ => legacyAttemptOk,
    esrpAttempts := fun _ => EsrpOutcome.ok "/tmp/esrp.sig" "ESRPSIG" }

/-- Remote backend raising a retriable error on every attempt. -/
def ocFailAll : Nat → EsrpOutcome :=
  fun _ => EsrpOutcome.exc (PyExc.generic "connection reset")

/-- Remote backend failing retriably on attempts 1 through 9 and succeeding
on attempt 10. -/
def ocFail9 : Nat → EsrpOutcome :=
  fun n => if n ≤ 9 then EsrpOutcome.exc (PyExc.generic "connection reset")
           else EsrpOutcome.ok "/tmp/late.sig" "LATESIG"

/-- Settings with a thumbprint that is absent from the keystore listing used
in the failing evaluation of the key import. -/
def cfg7 : Settings :=
  { KEYVAULT := "kv", AUTH_CERT_PATH := "/certs/auth.pem", SIGN_CERT := "sc",
    LEGACY_KEY_PATH := "/keys/legacy.pem", APP_ID := "app", TENANT_ID := "ten",
    KEY_CODES := "k1", LEGACY_KEY_THUMBPRINT := "DEADBEEF" }

/-- A keystore listing that succeeds but does not mention `DEADBEEF`. -/
def env7 : LegacyEnv :=
  { listResult := { returncode := 0, stdout := "sec rsa4096 OTHER trust", stderr := "" } }

/-- Settings with the declared default (empty) legacy thumbprint. -/
def cfg10 : Settings :=
  { KEYVAULT := "kv", AUTH_CERT_PATH := "/certs/auth.pem", SIGN_CERT := "sc",
    LEGACY_KEY_PATH := "/keys/legacy.pem", APP_ID := "app", TENANT_ID := "ten",
    KEY_CODES := "k1", LEGACY_KEY_THUMBPRINT := "" }

/-- A failed keystore listing (non-zero exit, empty stdout). -/
def env10 : LegacyEnv :=
  { listResult := { returncode := 2, stdout := "", stderr := "gpg: cannot open keyring" } }

/-! ## Basic lemmas about the world and the retry combinator -/

theorem upd_same (m : String → Option String) (k v : String) : upd m k v k = some v := by
  simp [upd]

theorem log_redis (w : World) (e : Event) : (w.log e).redis = w.redis := rfl

theorem log_files (w : World) (e : Event) : (w.log e).files = w.files := rfl

theorem log_trace (w : World) (e : Event) : (w.log e).trace = w.trace ++ [e] := rfl

theorem countEsrp_log_of_not (w : World) (e : Event) (h : isEsrpInvoke e = false) :
    countEsrp (w.log e) = countEsrp w := by
  simp [countEsrp, World.log, List.countP_append, h]

theorem countEsrp_log_invoke (w : World) (k : String) (n : Nat) :
    countEsrp (w.log (Event.esrpInvoke k n)) = countEsrp w + 1 := by
  simp [countEsrp, World.log, List.countP_append, isEsrpInvoke]

theorem retryRun_zero (body : Nat → World → Except PyExc PyVal × World)
    (attempt : Nat) (w : World) :
    retryRun body attempt 0 w = body attempt w := rfl

theorem retryRun_succ_ok (body : Nat → World → Except PyExc PyVal × World)
    (attempt fuel : Nat) (w : World) (v : PyVal) (w₁ : World)
    (h : body attempt w = (Except.ok v, w₁)) :
    retryRun body attempt (fuel + 1) w = (Except.ok v, w₁) := by
  unfold retryRun
  rw [h]

theorem retryRun_succ_err (body : Nat → World → Except PyExc PyVal × World)
    (attempt fuel : Nat) (w : World) (e : PyExc) (w₁ : World)
    (h : body attempt w = (Except.error e, w₁)) :
    retryRun body attempt (fuel + 1) w =
      retryRun body (attempt + 1) fuel
        (w₁.log (Event.sleep (retryDelayMs (attempt + 1)))) := by
  conv_lhs => unfold retryRun
  rw [h]

theorem retryRun_success_record (body : Nat → World → Except PyExc PyVal × World)
    (key : String)
    (hb : ∀ n w₀, isSuccess (body n w₀).1 = true →
      ∃ p c, (body n w₀).2.redis key = some p ∧ (body n w₀).2.files p = some c) :
    ∀ attempt fuel w, isSuccess (retryRun body attempt fuel w).1 = true →
      ∃ p c, (retryRun body attempt fuel w).2.redis key = some p ∧
        (retryRun body attempt fuel w).2.files p = some c := by
  intro attempt fuel
  induction fuel generalizing attempt with
  | zero =>
    intro w h
    rw [retryRun_zero] at h ⊢
    exact hb attempt w h
  | succ fuel ih =>
    intro w h
    rcases hbody : body attempt w with ⟨r, w₁⟩
    cases r with
    | ok v =>
      rw [retryRun_succ_ok body attempt fuel w v w₁ hbody] at h ⊢
      have hrec := hb attempt w (by rw [hbody]; exact h)
      rwa [hbody] at hrec
    | error e =>
      rw [retryRun_succ_err body attempt fuel w e w₁ hbody] at h ⊢
      exact ih (attempt + 1) _ h

theorem retryRun_nosuccess_redis (body : Nat → World → Except PyExc PyVal × World)
    (hb : ∀ n w₀, isSuccess (body n w₀).1 = false → (body n w₀).2.redis = w₀.redis) :
    ∀ attempt fuel w, isSuccess (retryRun body attempt fuel w).1 = false →
      (retryRun body attempt fuel w).2.redis = w.redis := by
  intro attempt fuel
  induction fuel generalizing attempt with
  | zero =>
    intro w h
    rw [retryRun_zero] at h ⊢
    exact hb attempt w h
  | succ fuel ih =>
    intro w h
    rcases hbody : body attempt w with ⟨r, w₁⟩
    cases r with
    | ok v =>
      rw [retryRun_succ_ok body attempt fuel w v w₁ hbody] at h ⊢
      have hrec := hb attempt w (by rw [hbody]; exact h)
      rwa [hbody] at hrec
    | error e =>
      rw [retryRun_succ_err body attempt fuel w e w₁ hbody] at h ⊢
      have h₁ : (body attempt w).2.redis = w.redis := hb attempt w (by rw [hbody]; rfl)
      rw [hbody] at h₁
      rw [ih (attempt + 1) _ h]
      exact h₁

theorem retryRun_all_fail (body : Nat → World → Except PyExc PyVal × World)
    (hb : ∀ n w₀, isErr (body n w₀).1 = true ∧ countEsrp (body n w₀).2 = countEsrp w₀ + 1) :
    ∀ attempt fuel w, isErr (retryRun body attempt fuel w).1 = true ∧
      countEsrp (retryRun body attempt fuel w).2 = countEsrp w + (fuel + 1) := by
  intro attempt fuel
  induction fuel generalizing attempt with
  | zero =>
    intro w
    rw [retryRun_zero]
    exact hb attempt w
  | succ fuel ih =>
    intro w
    rcases hbody : body attempt w with ⟨r, w₁⟩
    have h₁ := (hb attempt w).1
    have h₂ := (hb attempt w).2
    rw [hbody] at h₁ h₂
    cases r with
    | ok v => simp [isErr] at h₁
    | error e =>
      rw [retryRun_succ_err body attempt fuel w e w₁ hbody]
      obtain ⟨ha, hc⟩ := ih (attempt + 1) (w₁.log (Event.sleep (retryDelayMs (attempt + 1))))
      refine ⟨ha, ?_⟩
      rw [hc, countEsrp_log_of_not w₁ (Event.sleep (retryDelayMs (attempt + 1))) rfl]
      rw [show countEsrp w₁ = countEsrp w + 1 from h₂]
      omega

theorem retryRun_fail_upto (body : Nat → World → Except PyExc PyVal × World) :
    ∀ attempt fuel w,
    (∀ n w₀, n < attempt + fuel →
      isErr (body n w₀).1 = true ∧ countEsrp (body n w₀).2 = countEsrp w₀ + 1) →
    (∀ w₀, isSuccess (body (attempt + fuel) w₀).1 = true ∧
      countEsrp (body (attempt + fuel) w₀).2 = countEsrp w₀ + 1) →
    isSuccess (retryRun body attempt fuel w).1 = true ∧
      countEsrp (retryRun body attempt fuel w).2 = countEsrp w + (fuel + 1) := by
  intro attempt fuel
  induction fuel generalizing attempt with
  | zero =>
    intro w hf hk
    rw [retryRun_zero]
    exact hk w
  | succ fuel ih =>
    intro w hf hk
    rcases hbody : body attempt w with ⟨r, w₁⟩
    have hlt : attempt < attempt + (fuel + 1) := by omega
    have h₁ := (hf attempt w hlt).1
    have h₂ := (hf attempt w hlt).2
    rw [hbody] at h₁ h₂
    cases r with
    | ok v => simp [isErr] at h₁
    | error e =>
      rw [retryRun_succ_err body attempt fuel w e w₁ hbody]
      have hf₂ : ∀ n w₀, n < (attempt + 1) + fuel →
          isErr (body n w₀).1 = true ∧ countEsrp (body n w₀).2 = countEsrp w₀ + 1 := by
        intro n w₀ hn
        exact hf n w₀ (by omega)
      have hk₂ : ∀ w₀, isSuccess (body ((attempt + 1) + fuel) w₀).1 = true ∧
          countEsrp (body ((attempt + 1) + fuel) w₀).2 = countEsrp w₀ + 1 := by
        intro w₀
        have heq : (attempt + 1) + fuel = attempt + (fuel + 1) := by omega
        rw [heq]
        exact hk w₀
      obtain ⟨hs, hc⟩ := ih (attempt + 1)
        (w₁.log (Event.sleep (retryDelayMs (attempt + 1)))) hf₂ hk₂
      refine ⟨hs, ?_⟩
      rw [hc, countEsrp_log_of_not w₁ (Event.sleep (retryDelayMs (attempt + 1))) rfl]
      rw [show countEsrp w₁ = countEsrp w + 1 from h₂]
      omega

theorem retryRun_count_ge (body : Nat → World → Except PyExc PyVal × World)
    (hb : ∀ n w₀, countEsrp (body n w₀).2 = countEsrp w₀ + 1) :
    ∀ attempt fuel w, countEsrp w + 1 ≤ countEsrp (retryRun body attempt fuel w).2 := by
  intro attempt fuel
  induction fuel generalizing attempt with
  | zero =>
    intro w
    rw [retryRun_zero, hb attempt w]
  | succ fuel ih =>
    intro w
    rcases hbody : body attempt w with ⟨r, w₁⟩
    have h₂ := hb attempt w
    rw [hbody] at h₂
    cases r with
    | ok v =>
      rw [retryRun_succ_ok body attempt fuel w v w₁ hbody]
      omega
    | error e =>
      rw [retryRun_succ_err body attempt fuel w e w₁ hbody]
      have hrec := ih (attempt + 1) (w₁.log (Event.sleep (retryDelayMs (attempt + 1))))
      rw [countEsrp_log_of_not w₁ (Event.sleep (retryDelayMs (attempt + 1))) rfl] at hrec
      have h₃ : countEsrp w₁ = countEsrp w + 1 := h₂
      omega

theorem log_trace_ext (w : World) (e : Event) : w.trace <+: (w.log e).trace := by
  rw [log_trace]
  exact List.prefix_append _ _

theorem retryRun_trace_ext (body : Nat → World → Except PyExc PyVal × World)
    (hb : ∀ n w₀, w₀.trace <+: (body n w₀).2.trace) :
    ∀ attempt fuel w, w.trace <+: (retryRun body attempt fuel w).2.trace := by
  intro attempt fuel
  induction fuel generalizing attempt with
  | zero =>
    intro w
    rw [retryRun_zero]
    exact hb attempt w
  | succ fuel ih =>
    intro w
    rcases hbody : body attempt w with ⟨r, w₁⟩
    have h₁ := hb attempt w
    rw [hbody] at h₁
    cases r with
    | ok v =>
      rw [retryRun_succ_ok body attempt fuel w v w₁ hbody]
      exact h₁
    | error e =>
      rw [retryRun_succ_err body attempt fuel w e w₁ hbody]
      exact (h₁.trans (log_trace_ext w₁ _)).trans
        (ih (attempt + 1) (w₁.log (Event.sleep (retryDelayMs (attempt + 1)))))

theorem sleeps_log_of_none (w : World) (e : Event) (h : sleepOf e = none) :
    sleeps (w.log e) = sleeps w := by
  simp [sleeps, World.log, List.filterMap_append, h]

theorem sleeps_log_sleep (w : World) (d : Nat) :
    sleeps (w.log (Event.sleep d)) = sleeps w ++ [d] := by
  simp [sleeps, World.log, List.filterMap_append, sleepOf]

theorem retryRun_sleeps (body : Nat → World → Except PyExc PyVal × World)
    (hb : ∀ n w₀, sleeps (body n w₀).2 = sleeps w₀ ∧ isErr (body n w₀).1 = true) :
    ∀ attempt fuel w, sleeps (retryRun body attempt fuel w).2 =
      sleeps w ++ (List.range fuel).map (fun i => retryDelayMs (attempt + 1 + i)) := by
  intro attempt fuel
  induction fuel generalizing attempt with
  | zero =>
    intro w
    rw [retryRun_zero, (hb attempt w).1]
    simp
  | succ fuel ih =>
    intro w
    rcases hbody : body attempt w with ⟨r, w₁⟩
    have h₁ := (hb attempt w).1
    have h₂ := (hb attempt w).2
    rw [hbody] at h₁ h₂
    cases r with
    | ok v => simp [isErr] at h₂
    | error e =>
      rw [retryRun_succ_err body attempt fuel w e w₁ hbody]
      rw [ih (attempt + 1)]
      have hsl : sleeps (w₁.log (Event.sleep (retryDelayMs (attempt + 1)))) =
          sleeps w ++ [retryDelayMs (attempt + 1)] := by
        rw [sleeps_log_sleep]
        rw [show sleeps w₁ = sleeps w from h₁]
      rw [hsl, List.append_assoc]
      rw [List.range_succ_eq_map, List.map_cons, List.map_map]
      have hfun : (fun i => retryDelayMs (attempt + 1 + 1 + i)) =
          ((fun i => retryDelayMs (attempt + 1 + i)) ∘ Nat.succ) := by
        funext i
        simp only [Function.comp]
        congr 1
        omega
      rw [hfun]
      rfl

/-! ## Lemmas about one attempt of `sign_request_retriable` -/

theorem esrp_body_ok_fst (p c task_id key_id : String) (n : Nat) (w : World) :
    (sign_request_retriable_body (EsrpOutcome.ok p c) task_id key_id n w).1 =
      Except.ok (PyVal.bool true) := rfl

theorem esrp_body_ok_redis (p c task_id key_id : String) (n : Nat) (w : World) :
    (sign_request_retriable_body (EsrpOutcome.ok p c) task_id key_id n w).2.redis =
      upd w.redis (get_signature_index task_id) p := rfl

theorem esrp_body_ok_files (p c task_id key_id : String) (n : Nat) (w : World) :
    (sign_request_retriable_body (EsrpOutcome.ok p c) task_id key_id n w).2.files =
      upd w.files p c := rfl

theorem esrp_body_ok_trace (p c task_id key_id : String) (n : Nat) (w : World) :
    (sign_request_retriable_body (EsrpOutcome.ok p c) task_id key_id n w).2.trace =
      w.trace ++ [Event.logInfo ("Generating signature for " ++ task_id)] ++
        [Event.esrpInvoke key_id n] ++
        [Event.logInfo ("Successfully signed file for " ++ task_id)] ++
        [Event.redisSet (get_signature_index task_id) p] := rfl

theorem esrp_body_terminal_eq (e : PyExc) (he : isNonRetriable e = true)
    (task_id key_id : String) (n : Nat) (w : World) :
    sign_request_retriable_body (EsrpOutcome.exc e) task_id key_id n w =
      (Except.ok (PyVal.bool false),
        (((w.log (Event.logInfo ("Generating signature for " ++ task_id))).log
            (Event.esrpInvoke key_id n)).log
          (Event.logError ("Fatal error handling request for task " ++ task_id)))) := by
  simp [sign_request_retriable_body, he]

theorem esrp_body_retriable_eq (e : PyExc) (he : isNonRetriable e = false)
    (task_id key_id : String) (n : Nat) (w : World) :
    sign_request_retriable_body (EsrpOutcome.exc e) task_id key_id n w =
      (Except.error e,
        (((w.log (Event.logInfo ("Generating signature for " ++ task_id))).log
            (Event.esrpInvoke key_id n)).log
          (Event.logError ("Retriable error handling request for task " ++ task_id)))) := by
  simp [sign_request_retriable_body, he]

theorem esrp_body_count (oc : EsrpOutcome) (task_id key_id : String) (n : Nat) (w : World) :
    countEsrp (sign_request_retriable_body oc task_id key_id n w).2 = countEsrp w + 1 := by
  cases oc with
  | ok p c =>
    rw [countEsrp, esrp_body_ok_trace]
    simp [countEsrp, List.countP_append, isEsrpInvoke]
  | exc e =>
    cases he : isNonRetriable e with
    | true =>
      rw [esrp_body_terminal_eq e he]
      simp [countEsrp, World.log, List.countP_append, isEsrpInvoke]
    | false =>
      rw [esrp_body_retriable_eq e he]
      simp [countEsrp, World.log, List.countP_append, isEsrpInvoke]

theorem esrp_body_success_record (oc : EsrpOutcome) (task_id key_id : String)
    (n : Nat) (w : World)
    (h : isSuccess (sign_request_retriable_body oc task_id key_id n w).1 = true) :
    ∃ p c, (sign_request_retriable_body oc task_id key_id n w).2.redis
        (get_signature_index task_id) = some p ∧
      (sign_request_retriable_body oc task_id key_id n w).2.files p = some c := by
  cases oc with
  | ok p c =>
    refine ⟨p, c, ?_, ?_⟩
    · rw [esrp_body_ok_redis]
      exact upd_same _ _ _
    · rw [esrp_body_ok_files]
      exact upd_same _ _ _
  | exc e =>
    cases he : isNonRetriable e with
    | true =>
      rw [esrp_body_terminal_eq e he] at h
      simp [isSuccess, PyVal.isTruthy] at h
    | false =>
      rw [esrp_body_retriable_eq e he] at h
      simp [isSuccess] at h

theorem esrp_body_nosuccess_redis (oc : EsrpOutcome) (task_id key_id : String)
    (n : Nat) (w : World)
    (h : isSuccess (sign_request_retriable_body oc task_id key_id n w).1 = false) :
    (sign_request_retriable_body oc task_id key_id n w).2.redis = w.redis := by
  cases oc with
  | ok p c =>
    rw [esrp_body_ok_fst] at h
    simp [isSuccess, PyVal.isTruthy] at h
  | exc e =>
    cases he : isNonRetriable e with
    | true =>
      rw [esrp_body_terminal_eq e he]
      rfl
    | false =>
      rw [esrp_body_retriable_eq e he]
      rfl

theorem esrp_body_retriable_isErr (e : PyExc) (task_id key_id : String)
    (n : Nat) (w : World) (he : isNonRetriable e = false) :
    isErr (sign_request_retriable_body (EsrpOutcome.exc e) task_id key_id n w).1 = true := by
  rw [esrp_body_retriable_eq e he]
  rfl

theorem esrp_body_ok_isSuccess (p c task_id key_id : String) (n : Nat) (w : World) :
    isSuccess (sign_request_retriable_body (EsrpOutcome.ok p c) task_id key_id n w).1 = true := by
  rw [esrp_body_ok_fst]
  rfl

theorem esrp_body_sleeps (oc : EsrpOutcome) (task_id key_id : String) (n : Nat) (w : World) :
    sleeps (sign_request_retriable_body oc task_id key_id n w).2 = sleeps w := by
  cases oc with
  | ok p c =>
    rw [sleeps, esrp_body_ok_trace]
    simp [sleeps, List.filterMap_append, sleepOf]
  | exc e =>
    cases he : isNonRetriable e with
    | true =>
      rw [esrp_body_terminal_eq e he]
      simp [sleeps, World.log, List.filterMap_append, sleepOf]
    | false =>
      rw [esrp_body_retriable_eq e he]
      simp [sleeps, World.log, List.filterMap_append, sleepOf]

theorem esrp_body_trace_ext (oc : EsrpOutcome) (task_id key_id : String)
    (n : Nat) (w : World) :
    w.trace <+: (sign_request_retriable_body oc task_id key_id n w).2.trace := by
  cases oc with
  | ok p c =>
    rw [esrp_body_ok_trace]
    exact (((List.prefix_append _ _).trans (List.prefix_append _ _)).trans
      (List.prefix_append _ _)).trans (List.prefix_append _ _)
  | exc e =>
    cases he : isNonRetriable e with
    | true =>
      rw [esrp_body_terminal_eq e he]
      exact ((List.prefix_append _ _).trans (List.prefix_append _ _)).trans
        (List.prefix_append _ _)
    | false =>
      rw [esrp_body_retriable_eq e he]
      exact ((List.prefix_append _ _).trans (List.prefix_append _ _)).trans
        (List.prefix_append _ _)

/-! ## Lemmas about the key import and the legacy backend -/

theorem import_legacy_key_redis (cfg : Settings) (env : LegacyEnv) (w : World) :
    (import_legacy_key cfg env w).2.redis = w.redis := by
  simp only [import_legacy_key]
  split <;> split <;> rfl

theorem import_legacy_key_files (cfg : Settings) (env : LegacyEnv) (w : World) :
    (import_legacy_key cfg env w).2.files = w.files := by
  simp only [import_legacy_key]
  split <;> split <;> rfl

theorem import_legacy_key_found (cfg : Settings) (env : LegacyEnv) (w : World)
    (h : strIn cfg.LEGACY_KEY_THUMBPRINT env.listResult.stdout = true) :
    (import_legacy_key cfg env w).1 = Except.ok () ∧
    (import_legacy_key cfg env w).2.redis = w.redis ∧
    (import_legacy_key cfg env w).2.files = w.files ∧
    countVaultFetches (import_legacy_key cfg env w).2 = countVaultFetches w ∧
    countGpgImports (import_legacy_key cfg env w).2 = countGpgImports w := by
  refine ⟨?_, import_legacy_key_redis cfg env w, import_legacy_key_files cfg env w, ?_, ?_⟩
  · simp [import_legacy_key, h]
  · simp only [import_legacy_key, h, if_true]
    split <;>
      simp [countVaultFetches, World.log, List.countP_append, isVaultFetch]
  · simp only [import_legacy_key, h, if_true]
    split <;>
      simp [countGpgImports, World.log, List.countP_append, isGpgImport]

theorem isInfixChars_nil (h : List Char) : isInfixChars [] h = true := by
  cases h with
  | nil => rfl
  | cons c t =>
    rw [isInfixChars]
    simp [isPrefixChars]

theorem strIn_empty (s : String) : strIn "" s = true := by
  rw [strIn]
  exact isInfixChars_nil s.data

theorem legacy_body_success_record (cfg : Settings) (env : LegacyAttemptEnv)
    (task_id : String) (n : Nat) (w : World)
    (h : isSuccess (sign_legacy_body cfg env task_id n w).1 = true) :
    ∃ p c, (sign_legacy_body cfg env task_id n w).2.redis
        (get_signature_index task_id) = some p ∧
      (sign_legacy_body cfg env task_id n w).2.files p = some c := by
  have hb : sign_legacy_body cfg env task_id n w
      = afterImport env task_id n (import_legacy_key cfg env.importEnv w) := rfl
  rcases himp : import_legacy_key cfg env.importEnv w with ⟨r, w₁⟩
  rw [himp] at hb
  rw [hb] at h ⊢
  cases r with
  | error e =>
    simp only [afterImport] at h
    simp [isSuccess] at h
  | ok u =>
    simp only [afterImport] at h ⊢
    by_cases hrc : env.signResult.returncode = 0
    · refine ⟨env.sigPath, env.sigContent, ?_, ?_⟩
      · rw [if_pos hrc]
        exact upd_same _ _ _
      · rw [if_pos hrc]
        exact upd_same _ _ _
    · rw [if_neg hrc] at h
      simp [isSuccess] at h

theorem legacy_body_nosuccess_redis (cfg : Settings) (env : LegacyAttemptEnv)
    (task_id : String) (n : Nat) (w : World)
    (h : isSuccess (sign_legacy_body cfg env task_id n w).1 = false) :
    (sign_legacy_body cfg env task_id n w).2.redis = w.redis := by
  have hb : sign_legacy_body cfg env task_id n w
      = afterImport env task_id n (import_legacy_key cfg env.importEnv w) := rfl
  rcases himp : import_legacy_key cfg env.importEnv w with ⟨r, w₁⟩
  have hred : w₁.redis = w.redis := by
    have hik := import_legacy_key_redis cfg env.importEnv w
    rw [himp] at hik
    exact hik
  rw [himp] at hb
  rw [hb] at h ⊢
  cases r with
  | error e =>
    simp only [afterImport]
    exact hred
  | ok u =>
    simp only [afterImport] at h ⊢
    by_cases hrc : env.signResult.returncode = 0
    · rw [if_pos hrc] at h
      simp [isSuccess, PyVal.isTruthy] at h
    · rw [if_neg hrc]
      exact hred

/-! ## Lemmas about the dispatcher shape -/

theorem dispatchResult_ok (v : PyVal) (w₁ : World) (e : Event) :
    dispatchResult (Except.ok v, w₁) e = (v, w₁) := rfl

theorem dispatchResult_err (ex : PyExc) (w₁ : World) (e : Event) :
    dispatchResult (Except.error ex, w₁) e = (PyVal.bool false, w₁.log e) := rfl

/-! ## Claim theorems -/

/-- C3: the claim states that for a correlation id with no record in the
result store, `retrieve_signature` returns a well-defined not-found outcome
and never raises.  The code instead executes `return Response` on a store
miss, and the name `Response` is neither defined nor imported in `signer.py`,
so a `NameError` escapes: evaluated here at the unknown id
`never-submitted` against an empty store. -/
theorem c3_missing_id_raises_name_error :
    (get_signature_file "never-submitted" emptyWorld).1 =
      Except.error (PyExc.nameError "Response") := rfl

/-- C2: the claim states that `sign_request` never propagates an exception
and always returns a boolean, `True` on success.  The never-throws half holds
(the model's total return type reflects the blanket `except Exception`
handlers), but on a successful legacy-path signing the code executes
`return res` inside `sign_legacy`, so the dispatcher returns the
`CompletedProcess` object of the gpg invocation — a truthy non-boolean —
contradicting both the claim and the functions' own `-> bool` annotations:
evaluated here on a legacy request whose key is already imported and whose
gpg detach-sign exits 0. -/
theorem c2_legacy_success_returns_process_object :
    (sign_request cfgA envA "legacy" "t2" emptyWorld).1 =
      PyVal.completedProcess 0 "gpgout" "gpgerr" ∧
    PyVal.isBool (sign_request cfgA envA "legacy" "t2" emptyWorld).1 = false ∧
    PyVal.isTruthy (sign_request cfgA envA "legacy" "t2" emptyWorld).1 = true := by
  exact ⟨rfl, rfl, rfl⟩

/-- C7: the claim states that whenever legacy key material is fetched and
written to a temporary file, the file is removed on every exit path of
the import step.  In the code the download path is never reached: evaluating
`settings.LEGACY_KEY` (not a declared field of `Settings` in `config.py`)
raises `AttributeError` before the vault fetch, so no key material is ever
fetched, no temporary file is ever written, and the cleanup code
(`util.secure_delete`) is dead: evaluated here at a listing that does not
contain the configured thumbprint. -/
theorem c7_import_crashes_before_any_fetch :
    (import_legacy_key cfg7 env7 emptyWorld).1 =
      Except.error (PyExc.attributeError "LEGACY_KEY") ∧
    countVaultFetches (import_legacy_key cfg7 env7 emptyWorld).2 = 0 ∧
    countTempWrites (import_legacy_key cfg7 env7 emptyWorld).2 = 0 ∧
    (import_legacy_key cfg7 env7 emptyWorld).2.files = emptyWorld.files := by
  exact ⟨rfl, rfl, rfl, rfl⟩

/-- C8: if the configured legacy thumbprint occurs in the keystore listing
output, `import_legacy_key` returns immediately with no secret-vault fetch,
no keystore import, and no change to the store or the filesystem — so a
second call when the identity is present performs no additional fetch or any
keystore import either. -/
theorem c8_present_key_short_circuits (cfg : Settings) (env : LegacyEnv) (w : World)
    (h : strIn cfg.LEGACY_KEY_THUMBPRINT env.listResult.stdout = true) :
    (import_legacy_key cfg env w).1 = Except.ok () ∧
    (import_legacy_key cfg env w).2.redis = w.redis ∧
    (import_legacy_key cfg env w).2.files = w.files ∧
    countVaultFetches (import_legacy_key cfg env w).2 = countVaultFetches w ∧
    countGpgImports (import_legacy_key cfg env w).2 = countGpgImports w :=
  import_legacy_key_found cfg env w h

/-- C8 witness: concrete evaluation at a listing containing the configured
thumbprint `ABCD`. -/
theorem c8_present_key_short_circuits_witness :
    strIn cfgA.LEGACY_KEY_THUMBPRINT legacyAttemptOk.importEnv.listResult.stdout = true ∧
    ((import_legacy_key cfgA legacyAttemptOk.importEnv emptyWorld).1 = Except.ok () ∧
     (import_legacy_key cfgA legacyAttemptOk.importEnv emptyWorld).2.redis = emptyWorld.redis ∧
     (import_legacy_key cfgA legacyAttemptOk.importEnv emptyWorld).2.files = emptyWorld.files ∧
     countVaultFetches (import_legacy_key cfgA legacyAttemptOk.importEnv emptyWorld).2 =
       countVaultFetches emptyWorld ∧
     countGpgImports (import_legacy_key cfgA legacyAttemptOk.importEnv emptyWorld).2 =
       countGpgImports emptyWorld) :=
  ⟨rfl, c8_present_key_short_circuits cfgA legacyAttemptOk.importEnv emptyWorld rfl⟩

/-- C10: with the declared default `LEGACY_KEY_THUMBPRINT = ""`, the Python
substring test `"" in stdout` holds for every listing output — including the
empty stdout of a failed listing — so `import_legacy_key` always takes the
early-return branch: no vault fetch, no import, no state change. -/
theorem c10_default_thumbprint_short_circuits (cfg : Settings) (env : LegacyEnv) (w : World)
    (h : cfg.LEGACY_KEY_THUMBPRINT = "") :
    (import_legacy_key cfg env w).1 = Except.ok () ∧
    (import_legacy_key cfg env w).2.redis = w.redis ∧
    (import_legacy_key cfg env w).2.files = w.files ∧
    countVaultFetches (import_legacy_key cfg env w).2 = countVaultFetches w ∧
    countGpgImports (import_legacy_key cfg env w).2 = countGpgImports w := by
  apply import_legacy_key_found
  rw [h]
  exact strIn_empty _

/-- C10 witness: concrete evaluation with the default empty thumbprint and a
failed keystore listing (exit code 2, empty stdout). -/
theorem c10_default_thumbprint_short_circuits_witness :
    cfg10.LEGACY_KEY_THUMBPRINT = "" ∧
    ((import_legacy_key cfg10 env10 emptyWorld).1 = Except.ok () ∧
     (import_legacy_key cfg10 env10 emptyWorld).2.redis = emptyWorld.redis ∧
     (import_legacy_key cfg10 env10 emptyWorld).2.files = emptyWorld.files ∧
     countVaultFetches (import_legacy_key cfg10 env10 emptyWorld).2 =
       countVaultFetches emptyWorld ∧
     countGpgImports (import_legacy_key cfg10 env10 emptyWorld).2 =
       countGpgImports emptyWorld) :=
  ⟨rfl, c10_default_thumbprint_short_circuits cfg10 env10 emptyWorld rfl⟩

/-- C5 counterexample: with a backend raising the terminal
`ESRPAuthException` on the first attempt, the wrapped call does NOT end in a
raised exception — the terminal error is caught inside the wrapped body and
converted to a returned `False` — so the claim that the terminal error
propagates out of the retry wrapper on its first occurrence is false at this
input (the single-invocation part does hold: exactly one backend call). -/
theorem c5_counterexample_terminal_not_propagated :
    isErr (sign_request_retriable (fun _ => EsrpOutcome.exc PyExc.esrpAuth)
      "t5" "k5" emptyWorld).1 = false ∧
    (sign_request_retriable (fun _ => EsrpOutcome.exc PyExc.esrpAuth)
      "t5" "k5" emptyWorld).1 = Except.ok (PyVal.bool false) ∧
    countEsrp (sign_request_retriable (fun _ => EsrpOutcome.exc PyExc.esrpAuth)
      "t5" "k5" emptyWorld).2 = 1 := by
  exact ⟨rfl, rfl, rfl⟩

/-- C5 (amended): for every terminal error (authentication/authorization or
validation) raised by the backend on the first attempt, the backend is
invoked exactly once — no retries — and the wrapper immediately returns the
failure value `False`; the terminal error is caught and logged inside the
wrapped body instead of propagating out of the wrapper. -/
theorem c5_terminal_error_single_attempt (oc : Nat → EsrpOutcome)
    (task_id key_id : String) (w : World) (e : PyExc)
    (h1 : oc 1 = EsrpOutcome.exc e) (ht : isNonRetriable e = true) :
    (sign_request_retriable oc task_id key_id w).1 = Except.ok (PyVal.bool false) ∧
    countEsrp (sign_request_retriable oc task_id key_id w).2 = countEsrp w + 1 := by
  have hb : (fun n w₀ => sign_request_retriable_body (oc n) task_id key_id n w₀) 1 w
      = (Except.ok (PyVal.bool false),
        (((w.log (Event.logInfo ("Generating signature for " ++ task_id))).log
            (Event.esrpInvoke key_id 1)).log
          (Event.logError ("Fatal error handling request for task " ++ task_id)))) := by
    show sign_request_retriable_body (oc 1) task_id key_id 1 w = _
    rw [h1]
    exact esrp_body_terminal_eq e ht task_id key_id 1 w
  have hrun : sign_request_retriable oc task_id key_id w
      = (Except.ok (PyVal.bool false),
        (((w.log (Event.logInfo ("Generating signature for " ++ task_id))).log
            (Event.esrpInvoke key_id 1)).log
          (Event.logError ("Fatal error handling request for task " ++ task_id)))) := by
    show retryRun (fun n w₀ => sign_request_retriable_body (oc n) task_id key_id n w₀)
      1 (8 + 1) w = _
    exact retryRun_succ_ok _ 1 8 w _ _ hb
  rw [hrun]
  refine ⟨rfl, ?_⟩
  simp [countEsrp, World.log, List.countP_append, isEsrpInvoke]

/-- C5 witness: concrete terminal `ClientAuthenticationError` on the first
attempt, evaluated from the empty world. -/
theorem c5_terminal_error_single_attempt_witness :
    (sign_request_retriable (fun _ => EsrpOutcome.exc PyExc.clientAuth)
      "t5w" "k5w" emptyWorld).1 = Except.ok (PyVal.bool false) ∧
    countEsrp (sign_request_retriable (fun _ => EsrpOutcome.exc PyExc.clientAuth)
      "t5w" "k5w" emptyWorld).2 = countEsrp emptyWorld + 1 :=
  c5_terminal_error_single_attempt (fun _ => EsrpOutcome.exc PyExc.clientAuth)
    "t5w" "k5w" emptyWorld PyExc.clientAuth rfl rfl

/-- C4: the retry wrapper invokes the wrapped backend at most 10 times.  A
backend raising a retriable error on every attempt is invoked exactly 10
times with overall failure (the last exception propagates, no 11th
invocation); a backend failing retriably on attempts 1 through 9 and
succeeding on attempt 10 yields overall success with exactly 10
invocations. -/
theorem c4_retry_attempt_counts (oc₁ oc₂ : Nat → EsrpOutcome)
    (task_id key_id : String) (w : World)
    (h₁ : ∀ n, ∃ e, oc₁ n = EsrpOutcome.exc e ∧ isNonRetriable e = false)
    (h₂ : ∀ n, n ≤ 9 → ∃ e, oc₂ n = EsrpOutcome.exc e ∧ isNonRetriable e = false)
    (h₂ok : ∃ p c, oc₂ 10 = EsrpOutcome.ok p c) :
    (isErr (sign_request_retriable oc₁ task_id key_id w).1 = true ∧
      countEsrp (sign_request_retriable oc₁ task_id key_id w).2 = countEsrp w + 10) ∧
    (isSuccess (sign_request_retriable oc₂ task_id key_id w).1 = true ∧
      countEsrp (sign_request_retriable oc₂ task_id key_id w).2 = countEsrp w + 10) := by
  constructor
  · have hall := retryRun_all_fail
      (fun n w₀ => sign_request_retriable_body (oc₁ n) task_id key_id n w₀)
      (fun n w₀ => by
        obtain ⟨e, he, hne⟩ := h₁ n
        refine ⟨?_, esrp_body_count (oc₁ n) task_id key_id n w₀⟩
        show isErr (sign_request_retriable_body (oc₁ n) task_id key_id n w₀).1 = true
        rw [he]
        exact esrp_body_retriable_isErr e task_id key_id n w₀ hne)
      1 9 w
    rw [sign_request_retriable]
    exact ⟨hall.1, by rw [hall.2]⟩
  · have hupto := retryRun_fail_upto
      (fun n w₀ => sign_request_retriable_body (oc₂ n) task_id key_id n w₀)
      1 9 w
      (fun n w₀ hn => by
        obtain ⟨e, he, hne⟩ := h₂ n (by omega)
        refine ⟨?_, esrp_body_count (oc₂ n) task_id key_id n w₀⟩
        show isErr (sign_request_retriable_body (oc₂ n) task_id key_id n w₀).1 = true
        rw [he]
        exact esrp_body_retriable_isErr e task_id key_id n w₀ hne)
      (fun w₀ => by
        obtain ⟨p, c, hpc⟩ := h₂ok
        constructor
        · show isSuccess (sign_request_retriable_body (oc₂ (1 + 9)) task_id key_id (1 + 9) w₀).1 = true
          rw [show (1 + 9 : Nat) = 10 from rfl, hpc]
          exact esrp_body_ok_isSuccess p c task_id key_id 10 w₀
        · exact esrp_body_count (oc₂ (1 + 9)) task_id key_id (1 + 9) w₀)
    rw [sign_request_retriable]
    exact ⟨hupto.1, by rw [hupto.2]⟩

/-- C4 witness: concrete always-failing and fail-9-then-succeed backends,
evaluated from the empty world. -/
theorem c4_retry_attempt_counts_witness :
    (isErr (sign_request_retriable ocFailAll "t4" "k4" emptyWorld).1 = true ∧
      countEsrp (sign_request_retriable ocFailAll "t4" "k4" emptyWorld).2 =
        countEsrp emptyWorld + 10) ∧
    (isSuccess (sign_request_retriable ocFail9 "t4" "k4" emptyWorld).1 = true ∧
      countEsrp (sign_request_retriable ocFail9 "t4" "k4" emptyWorld).2 =
        countEsrp emptyWorld + 10) := by
  apply c4_retry_attempt_counts
  · intro n
    exact ⟨PyExc.generic "connection reset", rfl, rfl⟩
  · intro n hn
    refine ⟨PyExc.generic "connection reset", ?_, rfl⟩
    simp [ocFail9, hn]
  · refine ⟨"/tmp/late.sig", "LATESIG", ?_⟩
    simp [ocFail9]

/-- C6: with the modelled backoff of the retry wrapper, the delay recorded
before attempt `n` (for `2 ≤ n ≤ 10`, i.e. at position `n - 2` of the sleep
trace of a run whose backend fails retriably on every attempt) equals
`min(60000 ms, 2 ^ (n - 2) * 1000 ms)`; in particular the delay before the
second attempt is 1000 ms, and every delay is capped at 60000 ms. -/
theorem c6_backoff_delays (oc : Nat → EsrpOutcome) (task_id key_id : String)
    (h : ∀ n, ∃ e, oc n = EsrpOutcome.exc e ∧ isNonRetriable e = false) :
    sleeps (sign_request_retriable oc task_id key_id emptyWorld).2 =
      (List.range 9).map (fun i => min 60000 (2 ^ i * 1000)) ∧
    (sleeps (sign_request_retriable oc task_id key_id emptyWorld).2).head? = some 1000 ∧
    ∀ d ∈ sleeps (sign_request_retriable oc task_id key_id emptyWorld).2, d ≤ 60000 := by
  have hs := retryRun_sleeps
    (fun n w₀ => sign_request_retriable_body (oc n) task_id key_id n w₀)
    (fun n w₀ => by
      refine ⟨esrp_body_sleeps (oc n) task_id key_id n w₀, ?_⟩
      obtain ⟨e, he, hne⟩ := h n
      show isErr (sign_request_retriable_body (oc n) task_id key_id n w₀).1 = true
      rw [he]
      exact esrp_body_retriable_isErr e task_id key_id n w₀ hne)
    1 9 emptyWorld
  have hmain : sleeps (sign_request_retriable oc task_id key_id emptyWorld).2 =
      (List.range 9).map (fun i => min 60000 (2 ^ i * 1000)) := by
    rw [sign_request_retriable, hs]
    have hfg : (fun i => retryDelayMs (1 + 1 + i)) =
        (fun i => min 60000 (2 ^ i * 1000)) := by
      funext i
      rw [retryDelayMs, show 1 + 1 + i - 2 = i from by omega]
    rw [hfg]
    rfl
  refine ⟨hmain, ?_, ?_⟩
  · rw [hmain]
    rfl
  · intro d hd
    rw [hmain] at hd
    obtain ⟨i, hi, hdi⟩ := List.mem_map.mp hd
    rw [← hdi]
    exact min_le_left _ _

/-- C6 witness: concrete always-retriably-failing backend; the recorded
delays are 1, 2, 4, 8, 16, 32 seconds and then three delays capped at 60
seconds. -/
theorem c6_backoff_delays_witness :
    sleeps (sign_request_retriable ocFailAll "t6" "k6" emptyWorld).2 =
      [1000, 2000, 4000, 8000, 16000, 32000, 60000, 60000, 60000] := by
  have h := c6_backoff_delays ocFailAll "t6" "k6"
    (fun n => ⟨PyExc.generic "connection reset", rfl, rfl⟩)
  rw [h.1]
  decide

/-- C9: for a key id that is neither `legacy` nor in the configured permitted
set, `sign_request` logs the diagnostic line and still proceeds to invoke the
remote signing authority through the retry policy (at least one backend
invocation is recorded) rather than aborting. -/
theorem c9_unpermitted_key_still_proceeds (cfg : Settings) (env : ReqEnv)
    (key_id task_id : String) (w : World)
    (hne : key_id ≠ "legacy") (hperm : is_valid_keycode cfg key_id = false) :
    Event.logError ("Key code " ++ key_id ++
        " is not in the list of supported keys for task " ++ task_id)
      ∈ (sign_request cfg env key_id task_id w).2.trace ∧
    countEsrp w + 1 ≤ countEsrp (sign_request cfg env key_id task_id w).2 := by
  have hcond : ¬(is_valid_keycode cfg key_id = true) := by
    simp [hperm]
  rw [sign_request, if_neg hne, if_neg hcond, sign_request_retriable]
  have hW : Event.logError ("Key code " ++ key_id ++
      " is not in the list of supported keys for task " ++ task_id)
      ∈ (w.log (Event.logError ("Key code " ++ key_id ++
        " is not in the list of supported keys for task " ++ task_id))).trace := by
    rw [log_trace]
    exact List.mem_append_right _ (List.mem_singleton.mpr rfl)
  have htr := retryRun_trace_ext
    (fun n w₀ => sign_request_retriable_body (env.esrpAttempts n) task_id key_id n w₀)
    (fun n w₀ => esrp_body_trace_ext (env.esrpAttempts n) task_id key_id n w₀)
    1 9 (w.log (Event.logError ("Key code " ++ key_id ++
      " is not in the list of supported keys for task " ++ task_id)))
  have hcnt := retryRun_count_ge
    (fun n w₀ => sign_request_retriable_body (env.esrpAttempts n) task_id key_id n w₀)
    (fun n w₀ => esrp_body_count (env.esrpAttempts n) task_id key_id n w₀)
    1 9 (w.log (Event.logError ("Key code " ++ key_id ++
      " is not in the list of supported keys for task " ++ task_id)))
  rw [countEsrp_log_of_not w (Event.logError ("Key code " ++ key_id ++
    " is not in the list of supported keys for task " ++ task_id)) rfl] at hcnt
  rcases hrr : retryRun
      (fun n w₀ => sign_request_retriable_body (env.esrpAttempts n) task_id key_id n w₀)
      1 9 (w.log (Event.logError ("Key code " ++ key_id ++
        " is not in the list of supported keys for task " ++ task_id))) with ⟨r, w₂⟩
  rw [hrr] at htr hcnt
  have hmem : Event.logError ("Key code " ++ key_id ++
      " is not in the list of supported keys for task " ++ task_id) ∈ w₂.trace := by
    obtain ⟨t, ht⟩ := htr
    rw [← ht]
    exact List.mem_append_left _ hW
  cases r with
  | ok v =>
    rw [dispatchResult_ok]
    exact ⟨hmem, hcnt⟩
  | error ex =>
    rw [dispatchResult_err]
    constructor
    · rw [log_trace]
      exact List.mem_append_left _ hmem
    · rw [countEsrp_log_of_not w₂
        (Event.logError ("Fatal error to handle request for " ++ task_id)) rfl]
      exact hcnt

/-- C9 witness: concrete key id `zz`, not `legacy` and not among the
permitted codes `k1;k2`. -/
theorem c9_unpermitted_key_still_proceeds_witness :
    "zz" ≠ "legacy" ∧ is_valid_keycode cfgA "zz" = false ∧
    (Event.logError ("Key code " ++ "zz" ++
        " is not in the list of supported keys for task " ++ "t9")
      ∈ (sign_request cfgA envA "zz" "t9" emptyWorld).2.trace ∧
     countEsrp emptyWorld + 1 ≤ countEsrp (sign_request cfgA envA "zz" "t9" emptyWorld).2) := by
  refine ⟨by decide, rfl, ?_⟩
  exact c9_unpermitted_key_still_proceeds cfgA envA "zz" "t9" emptyWorld (by decide) rfl

/-- C1: publication happens exactly on success.  If `sign_request` returns a
truthy (success) value, the result store holds exactly one record — the
function-typed store maps the correlation key to at most one location — at
the request's correlation id, the recorded file exists, and
`get_signature_file` retrieves its content; if `sign_request` returns a falsy
(failure) value — terminal error or retry exhaustion, on either backend — the
store is completely unchanged, so no record is published on any failure
path. -/
theorem c1_success_publishes_exactly_one_record (cfg : Settings) (env : ReqEnv)
    (key_id task_id : String) (w : World) (v : PyVal) (w₁ : World)
    (h : sign_request cfg env key_id task_id w = (v, w₁)) :
    (v.isTruthy = true → ∃ p c,
        w₁.redis (get_signature_index task_id) = some p ∧
        w₁.files p = some c ∧
        (get_signature_file task_id w₁).1 = Except.ok (PyVal.dict c)) ∧
    (v.isTruthy = false → w₁.redis = w.redis) := by
  have main : ∀ (rr : Except PyExc PyVal × World) (ev : Event),
      (isSuccess rr.1 = true → ∃ p c,
        rr.2.redis (get_signature_index task_id) = some p ∧ rr.2.files p = some c) →
      (isSuccess rr.1 = false → rr.2.redis = w.redis) →
      dispatchResult rr ev = (v, w₁) →
      (v.isTruthy = true → ∃ p c,
        w₁.redis (get_signature_index task_id) = some p ∧ w₁.files p = some c) ∧
      (v.isTruthy = false → w₁.redis = w.redis) := by
    rintro ⟨r, w₂⟩ ev hs hf hd
    cases r with
    | ok v₀ =>
      rw [dispatchResult_ok] at hd
      injection hd with hv hw
      subst hv
      subst hw
      exact ⟨fun ht => hs ht, fun hft => hf hft⟩
    | error ex =>
      rw [dispatchResult_err] at hd
      injection hd with hv hw
      subst hv
      subst hw
      constructor
      · intro ht
        simp [PyVal.isTruthy] at ht
      · intro hft
        exact hf rfl
  have finish : ((v.isTruthy = true → ∃ p c,
        w₁.redis (get_signature_index task_id) = some p ∧ w₁.files p = some c) ∧
      (v.isTruthy = false → w₁.redis = w.redis)) →
      (v.isTruthy = true → ∃ p c,
        w₁.redis (get_signature_index task_id) = some p ∧
        w₁.files p = some c ∧
        (get_signature_file task_id w₁).1 = Except.ok (PyVal.dict c)) ∧
      (v.isTruthy = false → w₁.redis = w.redis) := by
    rintro ⟨h₁, h₂⟩
    refine ⟨?_, h₂⟩
    intro ht
    obtain ⟨p, c, hp, hc⟩ := h₁ ht
    refine ⟨p, c, hp, hc, ?_⟩
    simp [get_signature_file, hp, hc]
  by_cases hk : key_id = "legacy"
  · rw [sign_request, if_pos hk] at h
    have hs : isSuccess (sign_legacy cfg env.legacyAttempts task_id w).1 = true →
        ∃ p c, (sign_legacy cfg env.legacyAttempts task_id w).2.redis
            (get_signature_index task_id) = some p ∧
          (sign_legacy cfg env.legacyAttempts task_id w).2.files p = some c := by
      rw [sign_legacy]
      exact retryRun_success_record _ (get_signature_index task_id)
        (fun n w₀ => legacy_body_success_record cfg (env.legacyAttempts n) task_id n w₀)
        1 9 w
    have hf : isSuccess (sign_legacy cfg env.legacyAttempts task_id w).1 = false →
        (sign_legacy cfg env.legacyAttempts task_id w).2.redis = w.redis := by
      rw [sign_legacy]
      exact retryRun_nosuccess_redis _
        (fun n w₀ => legacy_body_nosuccess_redis cfg (env.legacyAttempts n) task_id n w₀)
        1 9 w
    exact finish (main _ _ hs hf h)
  · rw [sign_request, if_neg hk] at h
    have hWred : (if is_valid_keycode cfg key_id then w
        else w.log (Event.logError ("Key code " ++ key_id ++
          " is not in the list of supported keys for task " ++ task_id))).redis
        = w.redis := by
      split <;> rfl
    set W := if is_valid_keycode cfg key_id then w
        else w.log (Event.logError ("Key code " ++ key_id ++
          " is not in the list of supported keys for task " ++ task_id)) with hWdef
    have hs : isSuccess (sign_request_retriable env.esrpAttempts task_id key_id W).1 = true →
        ∃ p c, (sign_request_retriable env.esrpAttempts task_id key_id W).2.redis
            (get_signature_index task_id) = some p ∧
          (sign_request_retriable env.esrpAttempts task_id key_id W).2.files p = some c := by
      rw [sign_request_retriable]
      exact retryRun_success_record _ (get_signature_index task_id)
        (fun n w₀ => esrp_body_success_record (env.esrpAttempts n) task_id key_id n w₀)
        1 9 W
    have hf : isSuccess (sign_request_retriable env.esrpAttempts task_id key_id W).1 = false →
        (sign_request_retriable env.esrpAttempts task_id key_id W).2.redis = w.redis := by
      rw [sign_request_retriable]
      intro hS
      rw [retryRun_nosuccess_redis _
        (fun n w₀ => esrp_body_nosuccess_redis (env.esrpAttempts n) task_id key_id n w₀)
        1 9 W hS]
      exact hWred
    exact finish (main _ _ hs hf h)

/-- C1 witness: concrete successful remote-backend request at key `k1` and
correlation id `t1`; the record is retrievable via `get_signature_file`. -/
theorem c1_success_publishes_exactly_one_record_witness :
    (sign_request cfgA envA "k1" "t1" emptyWorld).1.isTruthy = true ∧
    (∃ p c, (sign_request cfgA envA "k1" "t1" emptyWorld).2.redis
        (get_signature_index "t1") = some p ∧
      (sign_request cfgA envA "k1" "t1" emptyWorld).2.files p = some c ∧
      (get_signature_file "t1" (sign_request cfgA envA "k1" "t1" emptyWorld).2).1 =
        Except.ok (PyVal.dict c)) := by
  have h := c1_success_publishes_exactly_one_record cfgA envA "k1" "t1" emptyWorld
    (sign_request cfgA envA "k1" "t1" emptyWorld).1
    (sign_request cfgA envA "k1" "t1" emptyWorld).2 rfl
  exact ⟨rfl, h.1 rfl⟩
